import Mathlib

/-!
Shallow embedding of the pagination example server (`src/index.js`).

The repository exposes two GraphQL resolvers built on Photon's `findMany`:

* `postsOffset` — `resolve(parent, { offset, limit }, ctx)`:
  `if (!offset || !limit) throw new Error('Please provide an offset and limit.')`,
  then `ctx.photon.posts.findMany({ skip: offset, first: limit })` inside a
  `try { ... } catch (error) { console.log(error) }` with `let posts = []`
  initialised before the `try`, and finally `return posts`.

* `postsCursor` — `resolve(parent, { cursor, limit }, ctx)`:
  `if (!cursor || !limit) throw new Error('Please provide an cursor and limit.')`,
  then `ctx.photon.posts.findMany({ after: cursor, first: limit })` in the
  same try/catch shape.

The embedding models the Photon post table as an ordered list of posts (the
store's natural order), `skip`/`first` as `List.drop`/`List.take`, and
`after: cursor` as the Relay-style seek used by Photon: start strictly after
the record whose id equals the cursor. A store call either returns records or
throws; the flag `Store.available` selects which. JS falsiness of the GraphQL
arguments is modelled exactly: a number argument is falsy when absent or `0`,
a string argument is falsy when absent or `""`.
-/

namespace PaginationExample

/-- Post record as exposed by the schema: an id (the primary key, used by
Photon as the cursor value) and a title. -/
structure Post where
  id : String
  title : String
  deriving DecidableEq

/-- State of the Photon post table for one `findMany` call: the posts in the
store's natural order, and whether the call succeeds (`available = false`
models a `findMany` call that throws: connection failure, timeout,
cancellation). -/
structure Store where
  posts : List Post
  available : Bool
  deriving DecidableEq

/-- Error taxonomy of the specification (section 4.5). The resolvers in
`src/index.js` never construct any of these; the type is declared so that
statements can compare the code's actual outcomes against the spec's
returned-error-value channel. -/
inductive PaginationError where
  | MissingPaginationMode
  | AmbiguousPaginationMode
  | InvalidLimit
  | InvalidCursor
  | StoreUnavailable
  deriving DecidableEq

/-- Everything a resolver call can do, as observed at the entry-point
boundary: resolve with a list of posts, throw a JS `Error` with a message, or
return a structured pagination error value. The third channel is the one the
spec mandates; the resolvers as written only ever use the first two. -/
inductive ResolverOutcome where
  | ok (posts : List Post)
  | thrown (msg : String)
  | errValue (e : PaginationError)
  deriving DecidableEq

/-- JS falsiness of an optional number argument: `undefined` and `0` are
falsy (`!offset`, `!limit` in the source). -/
def falsyNum : Option Int → Bool
  | none => true
  | some n => n == 0

/-- JS falsiness of an optional string argument: `undefined` and `""` are
falsy (`!cursor` in the source). -/
def falsyStr : Option String → Bool
  | none => true
  | some s => s == ""

/-- Message of the error thrown by `postsOffset` when an argument is falsy. -/
def offsetMissingMsg : String := "Please provide an offset and limit."

/-- Message of the error thrown by `postsCursor` when an argument is falsy
(the typo "an cursor" is verbatim from the source). -/
def cursorMissingMsg : String := "Please provide an cursor and limit."

/-- Photon call `posts.findMany({ skip, first })`: drop `skip` records from
the natural order, take `first`. Returns `none` when the store call throws. -/
def findManyOffset (s : Store) (skip fst : Int) : Option (List Post) :=
  if s.available then some ((s.posts.drop skip.toNat).take fst.toNat) else none

/-- Records strictly after the record whose id equals the cursor, in the
store's natural order: the seek performed by `findMany({ after: cursor })`.
If no record has the cursor's id, the seek finds nothing. -/
def seekAfter (posts : List Post) (c : String) : List Post :=
  (posts.dropWhile (fun p => p.id != c)).drop 1

/-- Photon call `posts.findMany({ after, first })`: seek strictly past the
record identified by the cursor, take `first`. Returns `none` when the store
call throws. -/
def findManyAfter (s : Store) (c : String) (fst : Int) : Option (List Post) :=
  if s.available then some ((seekAfter s.posts c).take fst.toNat) else none

/-- The `postsOffset` resolver of `src/index.js`, lines 40-57. -/
def postsOffset (offset limit : Option Int) (s : Store) : ResolverOutcome :=
  if falsyNum offset || falsyNum limit then .thrown offsetMissingMsg
  else
    match findManyOffset s (offset.getD 0) (limit.getD 0) with
    | some posts => .ok posts
    | none => .ok []

/-- The `postsCursor` resolver of `src/index.js`, lines 59-72. -/
def postsCursor (cursor : Option String) (limit : Option Int) (s : Store) :
    ResolverOutcome :=
  if falsyStr cursor || falsyNum limit then .thrown cursorMissingMsg
  else
    match findManyAfter s (cursor.getD "") (limit.getD 0) with
    | some posts => .ok posts
    | none => .ok []

/-- Argument object that `postsOffset` passes to `findMany` (`{ skip: offset,
first: limit }`), or `none` when the resolver throws before reaching the
store. Read directly off the call site on line 52. -/
def postsOffsetQuery (offset limit : Option Int) : Option (Int × Int) :=
  if falsyNum offset || falsyNum limit then none
  else some (offset.getD 0, limit.getD 0)

/-- Argument object that `postsCursor` passes to `findMany` (`{ after:
cursor, first: limit }`), or `none` when the resolver throws before reaching
the store. Read directly off the call site on line 67. -/
def postsCursorQuery (cursor : Option String) (limit : Option Int) :
    Option (String × Int) :=
  if falsyStr cursor || falsyNum limit then none
  else some (cursor.getD "", limit.getD 0)

/-- Demo data in the shape seeded by `seedDb` ("Example Post 1", ...). -/
def demoPosts : List Post :=
  [⟨"a1", "Example Post 1"⟩, ⟨"a2", "Example Post 2"⟩,
   ⟨"a3", "Example Post 3"⟩, ⟨"a4", "Example Post 4"⟩,
   ⟨"a5", "Example Post 5"⟩, ⟨"a6", "Example Post 6"⟩,
   ⟨"a7", "Example Post 7"⟩, ⟨"a8", "Example Post 8"⟩]

/-- Modelled from the spec: the repository contains no Ordering Key Codec
(section 4.1) — the resolvers pass the raw record id through as the cursor —
so the token type is modelled from the spec's words: a token either carries
an `(orderingKey, uniqueKey)` pair or is malformed. -/
inductive RawToken (K U : Type) where
  | pair (orderingKey : K) (uniqueKey : U)
  | malformed (raw : String)

/-- Modelled from the spec: `encode(orderingKey, uniqueKey) -> Cursor`, a
total deterministic function of the key pair (section 4.1). -/
def encode {K U : Type} (k : K) (u : U) : RawToken K U := .pair k u

/-- Modelled from the spec: `decode(Cursor) -> (orderingKey, uniqueKey)`,
failing with `InvalidCursor` when the token is malformed (section 4.1). -/
def decode {K U : Type} : RawToken K U → Except PaginationError (K × U)
  | .pair k u => .ok (k, u)
  | .malformed _ => .error .InvalidCursor

/-- Helper: a nonzero number argument is not falsy. -/
lemma falsyNum_some (n : Int) (h : n ≠ 0) : falsyNum (some n) = false := by
  simp [falsyNum, h]

/-- Helper: a nonempty string argument is not falsy. -/
lemma falsyStr_some (s : String) (h : s ≠ "") : falsyStr (some s) = false := by
  simp [falsyStr, h]

/-- Helper: `postsOffset` only ever resolves or throws the missing-arguments
error; it has no other observable outcome. -/
lemma postsOffset_shape (o l : Option Int) (s : Store) :
    postsOffset o l s = .thrown offsetMissingMsg ∨
      ∃ p, postsOffset o l s = .ok p := by
  unfold postsOffset findManyOffset
  rcases s with ⟨posts, avail⟩
  cases h : (falsyNum o || falsyNum l) <;> cases avail <;> simp

/-- Helper: `postsCursor` only ever resolves or throws the missing-arguments
error; it has no other observable outcome. -/
lemma postsCursor_shape (c : Option String) (l : Option Int) (s : Store) :
    postsCursor c l s = .thrown cursorMissingMsg ∨
      ∃ p, postsCursor c l s = .ok p := by
  unfold postsCursor findManyAfter
  rcases s with ⟨posts, avail⟩
  cases h : (falsyStr c || falsyNum l) <;> cases avail <;> simp

/-- C9: a call to `postsOffset` with `offset = 0` (a valid skip count) and a
call to `postsCursor` with the empty-string cursor both throw the
missing-arguments error instead of fetching, whatever the limit and whatever
the store holds, because `!offset` / `!cursor` treat every falsy value as
missing. -/
theorem falsy_zero_offset_and_empty_cursor_rejected :
    (∀ (limit : Option Int) (s : Store),
      postsOffset (some 0) limit s = .thrown offsetMissingMsg) ∧
    (∀ (limit : Option Int) (s : Store),
      postsCursor (some "") limit s = .thrown cursorMissingMsg) :=
  ⟨fun _ _ => rfl, fun _ _ => rfl⟩

/-- C2, counterexample: on the raw request `{limit: 10}` (neither offset nor
cursor supplied) each resolver throws the unstructured
"Please provide ... limit." error; neither returns the
`MissingPaginationMode` error value the claim describes. -/
theorem missing_mode_counterexample :
    postsOffset none (some 10) ⟨demoPosts, true⟩ = .thrown offsetMissingMsg ∧
    postsCursor none (some 10) ⟨demoPosts, true⟩ = .thrown cursorMissingMsg ∧
    postsOffset none (some 10) ⟨demoPosts, true⟩ ≠
      .errValue PaginationError.MissingPaginationMode ∧
    postsCursor none (some 10) ⟨demoPosts, true⟩ ≠
      .errValue PaginationError.MissingPaginationMode := by
  refine ⟨rfl, rfl, by decide, by decide⟩

/-- C2, amended: when neither pagination field is supplied, each resolver
throws the "Please provide ... limit." error (not a `MissingPaginationMode`
value) and never touches the store — the outcome is the same for every store
state. -/
theorem missing_mode_thrown_before_store (limit : Option Int) (s s2 : Store) :
    postsOffset none limit s = .thrown offsetMissingMsg ∧
    postsCursor none limit s = .thrown cursorMissingMsg ∧
    postsOffset none limit s = postsOffset none limit s2 ∧
    postsCursor none limit s = postsCursor none limit s2 :=
  ⟨rfl, rfl, rfl, rfl⟩

/-- C3, counterexample: with `limit = 2` the argument object handed to
`findMany` carries `first = 2`, not `limit + 1 = 3`, in both modes, and the
resolver consequently receives exactly 2 records from an 8-record store. -/
theorem take_count_counterexample :
    postsOffsetQuery (some 1) (some 2) = some (1, 2) ∧
    postsCursorQuery (some "a1") (some 2) = some ("a1", 2) ∧
    (2 : Int) ≠ 2 + 1 ∧
    postsOffset (some 1) (some 2) ⟨demoPosts, true⟩ =
      .ok [⟨"a2", "Example Post 2"⟩, ⟨"a3", "Example Post 3"⟩] := by
  refine ⟨rfl, rfl, by decide, by decide⟩

/-- C3, amended: the store query takes exactly `limit` records (no
over-fetch) in offset mode and in cursor mode; the code computes no
`hasNextPage`/`hasPreviousPage` flags at all. -/
theorem take_count_equals_limit (o l : Int) (c : String)
    (ho : o ≠ 0) (hl : l ≠ 0) (hc : c ≠ "") :
    postsOffsetQuery (some o) (some l) = some (o, l) ∧
    postsCursorQuery (some c) (some l) = some (c, l) := by
  unfold postsOffsetQuery postsCursorQuery
  rw [falsyNum_some o ho, falsyNum_some l hl, falsyStr_some c hc]
  exact ⟨rfl, rfl⟩

/-- Witness for the amended C3 theorem at `offset = 1`, `cursor = "a1"`,
`limit = 2`. -/
theorem take_count_equals_limit_witness :
    ((1 : Int) ≠ 0 ∧ (2 : Int) ≠ 0 ∧ "a1" ≠ "") ∧
    postsOffsetQuery (some 1) (some 2) = some (1, 2) ∧
    postsCursorQuery (some "a1") (some 2) = some ("a1", 2) :=
  ⟨⟨by decide, by decide, by decide⟩,
   (take_count_equals_limit 1 2 "a1" (by decide) (by decide) (by decide)).1,
   (take_count_equals_limit 1 2 "a1" (by decide) (by decide) (by decide)).2⟩

/-- C4, counterexample: when the store call throws (`available = false`) the
resolvers return the empty successful result, not the `StoreUnavailable`
error value the claim describes. -/
theorem store_failure_counterexample :
    postsOffset (some 1) (some 2) ⟨demoPosts, false⟩ = .ok [] ∧
    postsCursor (some "a1") (some 2) ⟨demoPosts, false⟩ = .ok [] ∧
    postsOffset (some 1) (some 2) ⟨demoPosts, false⟩ ≠
      .errValue PaginationError.StoreUnavailable ∧
    postsCursor (some "a1") (some 2) ⟨demoPosts, false⟩ ≠
      .errValue PaginationError.StoreUnavailable := by
  refine ⟨rfl, rfl, by decide, by decide⟩

/-- C4, amended: when the store fetch throws, each resolver catches the
exception (logging it) and returns an empty success result in place of any
`StoreUnavailable` error. -/
theorem store_failure_swallowed (o l : Int) (c : String) (posts : List Post)
    (ho : o ≠ 0) (hl : l ≠ 0) (hc : c ≠ "") :
    postsOffset (some o) (some l) ⟨posts, false⟩ = .ok [] ∧
    postsCursor (some c) (some l) ⟨posts, false⟩ = .ok [] := by
  unfold postsOffset postsCursor findManyOffset findManyAfter
  rw [falsyNum_some o ho, falsyNum_some l hl, falsyStr_some c hc]
  exact ⟨rfl, rfl⟩

/-- Witness for the amended C4 theorem at `offset = 1`, `cursor = "a1"`,
`limit = 2` against a failing 8-record store. -/
theorem store_failure_swallowed_witness :
    ((1 : Int) ≠ 0 ∧ (2 : Int) ≠ 0 ∧ "a1" ≠ "") ∧
    postsOffset (some 1) (some 2) ⟨demoPosts, false⟩ = .ok [] :=
  ⟨⟨by decide, by decide, by decide⟩,
   (store_failure_swallowed 1 2 "a1" demoPosts (by decide) (by decide)
     (by decide)).1⟩

/-- C5, counterexample: the missing-arguments error is thrown past the
entry-point boundary as an unstructured message, and a thrown outcome is not
an error value with a stable code. -/
theorem error_thrown_past_boundary :
    postsOffset none (some 10) ⟨demoPosts, true⟩ = .thrown offsetMissingMsg ∧
    ResolverOutcome.thrown offsetMissingMsg ≠
      .errValue PaginationError.MissingPaginationMode ∧
    ResolverOutcome.thrown offsetMissingMsg ≠
      .errValue PaginationError.InvalidLimit := by
  refine ⟨rfl, by decide, by decide⟩

/-- C5, amended: the resolvers never return any structured error value; every
outcome is either a resolved list of posts or the single thrown
missing-arguments error (store failures having been swallowed into empty
success results). -/
theorem errors_never_returned_as_values (o l : Option Int) (c : Option String)
    (s : Store) :
    (postsOffset o l s = .thrown offsetMissingMsg ∨
      ∃ p, postsOffset o l s = .ok p) ∧
    (postsCursor c l s = .thrown cursorMissingMsg ∨
      ∃ p, postsCursor c l s = .ok p) ∧
    (∀ e : PaginationError, postsOffset o l s ≠ .errValue e) ∧
    (∀ e : PaginationError, postsCursor c l s ≠ .errValue e) := by
  refine ⟨postsOffset_shape o l s, postsCursor_shape c l s, ?_, ?_⟩
  · intro e he
    rcases postsOffset_shape o l s with h | ⟨p, h⟩ <;> rw [he] at h <;> simp at h
  · intro e he
    rcases postsCursor_shape c l s with h | ⟨p, h⟩ <;> rw [he] at h <;> simp at h

/-- C6, counterexample: `limit = 0` is rejected only through the falsy-check
throw (not an `InvalidLimit` value), and a limit far above any page-size
bound (`101`) is accepted and the fetch proceeds — no upper bound is
enforced. -/
theorem invalid_limit_counterexample :
    postsOffset (some 1) (some 0) ⟨demoPosts, true⟩ = .thrown offsetMissingMsg ∧
    postsOffset (some 1) (some 0) ⟨demoPosts, true⟩ ≠
      .errValue PaginationError.InvalidLimit ∧
    postsOffset (some 1) (some 101) ⟨demoPosts, true⟩ =
      .ok (demoPosts.drop 1) := by
  refine ⟨rfl, by decide, by decide⟩

/-- C6, amended: `limit = 0` is caught by the falsy presence check and the
resolver throws the missing-arguments error before any store access (same
outcome for every store), while every nonzero limit — however large — passes
validation and reaches the store. -/
theorem limit_zero_falsy_large_limit_accepted (o l : Int) (posts : List Post)
    (ho : o ≠ 0) (hl : l ≠ 0) :
    (∀ s : Store, postsOffset (some o) (some 0) s = .thrown offsetMissingMsg) ∧
    postsOffset (some o) (some l) ⟨posts, true⟩ =
      .ok ((posts.drop o.toNat).take l.toNat) := by
  constructor
  · intro s
    unfold postsOffset
    rw [falsyNum_some o ho]
    rfl
  · unfold postsOffset findManyOffset
    rw [falsyNum_some o ho, falsyNum_some l hl]
    rfl

/-- Witness for the amended C6 theorem at `offset = 1`, `limit = 101`. -/
theorem limit_zero_falsy_large_limit_accepted_witness :
    ((1 : Int) ≠ 0 ∧ (101 : Int) ≠ 0) ∧
    postsOffset (some 1) (some 101) ⟨demoPosts, true⟩ =
      .ok ((demoPosts.drop (1 : Int).toNat).take (101 : Int).toNat) :=
  ⟨⟨by decide, by decide⟩,
   (limit_zero_falsy_large_limit_accepted 1 101 demoPosts (by decide)
     (by decide)).2⟩

/-- C7: the documented offset-instability scenario cannot start, because its
first fetch (`skip = 0, limit = 4`) is thrown out by the falsy presence
check; at the `skip`/`take` level the instability itself is real — after
inserting one record at the front, the second window repeats the last record
of the first window. -/
theorem offset_zero_first_fetch_throws :
    postsOffset (some 0) (some 4) ⟨demoPosts, true⟩ = .thrown offsetMissingMsg ∧
    ((demoPosts.drop 0).take 4).getLast? = some ⟨"a4", "Example Post 4"⟩ ∧
    (⟨"a4", "Example Post 4"⟩ : Post) ∈
      (((⟨"a9", "New Post"⟩ : Post) :: demoPosts).drop 4).take 4 := by
  refine ⟨rfl, by decide, by decide⟩

/-- C8: for the codec modelled from the spec, decoding an encoded key pair
returns exactly that pair, and encoding is deterministic and injective — two
cursors compare equal as raw tokens exactly when they were issued for the
same `(orderingKey, uniqueKey)` pair. -/
theorem codec_round_trip_and_deterministic (K U : Type) (k k2 : K) (u u2 : U) :
    decode (encode k u) = Except.ok (k, u) ∧
    (encode k u = encode k2 u2 ↔ k = k2 ∧ u = u2) :=
  ⟨rfl, by simp [encode]⟩

/-- C10: with non-falsy arguments and a throwing store call, each resolver
returns exactly what it returns on a genuinely empty, healthy store — the
empty success result — so a store failure is indistinguishable at the public
interface from an empty result set. -/
theorem store_failure_indistinguishable_from_empty (o l : Int) (c : String)
    (posts : List Post) (ho : o ≠ 0) (hl : l ≠ 0) (hc : c ≠ "") :
    postsOffset (some o) (some l) ⟨posts, false⟩ =
      postsOffset (some o) (some l) ⟨[], true⟩ ∧
    postsCursor (some c) (some l) ⟨posts, false⟩ =
      postsCursor (some c) (some l) ⟨[], true⟩ := by
  unfold postsOffset postsCursor findManyOffset findManyAfter
  rw [falsyNum_some o ho, falsyNum_some l hl, falsyStr_some c hc]
  constructor <;> simp [seekAfter]

/-- Witness for the C10 theorem at `offset = 1`, `cursor = "a1"`,
`limit = 2` against a failing 8-record store. -/
theorem store_failure_indistinguishable_from_empty_witness :
    ((1 : Int) ≠ 0 ∧ (2 : Int) ≠ 0 ∧ "a1" ≠ "") ∧
    postsCursor (some "a1") (some 2) ⟨demoPosts, false⟩ =
      postsCursor (some "a1") (some 2) ⟨[], true⟩ :=
  ⟨⟨by decide, by decide, by decide⟩,
   (store_failure_indistinguishable_from_empty 1 2 "a1" demoPosts (by decide)
     (by decide) (by decide)).2⟩

/-- Helper: the seek past a record with id `c` skips any prefix whose records
all carry other ids and lands right after the first record carrying `c`. -/
lemma seekAfter_append (u v : List Post) (p : Post) (c : String)
    (hu : ∀ q ∈ u, q.id ≠ c) (hp : p.id = c) :
    seekAfter (u ++ p :: v) c = v := by
  induction u with
  | nil =>
      simp [seekAfter, List.dropWhile_cons, hp]
  | cons a u ih =>
      have ha : a.id ≠ c := hu a (by simp)
      have hu2 : ∀ q ∈ u, q.id ≠ c := fun q hq => hu q (by simp [hq])
      simpa [seekAfter, List.dropWhile_cons, ha] using ih hu2

/-- Helper: a nonempty seek result is the exact suffix of the store sitting
after some anchor record. -/
lemma exists_split_of_seekAfter_ne (posts : List Post) (c : String)
    (h : seekAfter posts c ≠ []) :
    ∃ u p, posts = u ++ p :: seekAfter posts c := by
  have hsplit := List.takeWhile_append_dropWhile (fun p => p.id != c) posts
  cases hdw : posts.dropWhile (fun p => p.id != c) with
  | nil =>
      exact absurd (by simp [seekAfter, hdw]) h
  | cons p0 tl =>
      refine ⟨posts.takeWhile (fun p => p.id != c), p0, ?_⟩
      have htl : seekAfter posts c = tl := by simp [seekAfter, hdw]
      rw [htl, ← hdw]
      exact hsplit.symm

/-- Helper: after one fresh record is inserted anywhere into a store, every
record found by seeking past the old anchor is either the inserted record or
a record that already lay strictly after the anchor. -/
lemma seekAfter_insert (A r s t : List Post) (pl x : Post)
    (hdb : A ++ pl :: r = s ++ t)
    (hA : ∀ q ∈ A, q.id ≠ pl.id)
    (hx : x.id ≠ pl.id) :
    ∀ q ∈ seekAfter (s ++ x :: t) pl.id, q = x ∨ q ∈ r := by
  rcases List.append_eq_append_iff.mp hdb with ⟨m, hs, hm⟩ | ⟨m, hAeq, ht⟩
  · -- the inserted record sits at or after the anchor
    cases m with
    | nil =>
        -- s is exactly the prefix before the anchor; x lands right before it
        simp only [List.nil_append] at hm
        have heq : s ++ x :: t = (A ++ [x]) ++ pl :: r := by
          rw [hs, ← hm]
          simp
        have hpre : ∀ q ∈ A ++ [x], q.id ≠ pl.id := by
          intro q hq
          rcases List.mem_append.mp hq with hqA | hqx
          · exact hA q hqA
          · rw [List.mem_singleton.mp hqx]
            exact hx
        intro q hq
        rw [heq, seekAfter_append (A ++ [x]) r pl pl.id hpre rfl] at hq
        exact Or.inr hq
    | cons p0 m =>
        -- x lands strictly after the anchor, inside the old suffix r
        have hp0 : p0 = pl := (List.cons.injEq _ _ _ _ |>.mp hm.symm).1
        have hr : r = m ++ t := by
          have := (List.cons.injEq _ _ _ _ |>.mp hm.symm).2
          exact this.symm
        have heq : s ++ x :: t = A ++ pl :: (m ++ x :: t) := by
          rw [hs, hp0]
          simp
        intro q hq
        rw [heq, seekAfter_append A (m ++ x :: t) pl pl.id hA rfl] at hq
        rcases List.mem_append.mp hq with hqm | hqxt
        · exact Or.inr (hr ▸ List.mem_append.mpr (Or.inl hqm))
        · rcases List.mem_cons.mp hqxt with hqx | hqt
          · exact Or.inl hqx
          · exact Or.inr (hr ▸ List.mem_append.mpr (Or.inr hqt))
  · -- the inserted record sits strictly before the anchor
    have heq : s ++ x :: t = (s ++ x :: m) ++ pl :: r := by
      rw [ht]
      simp
    have hpre : ∀ q ∈ s ++ x :: m, q.id ≠ pl.id := by
      intro q hq
      rcases List.mem_append.mp hq with hqs | hqxm
      · exact hA q (hAeq ▸ List.mem_append.mpr (Or.inl hqs))
      · rcases List.mem_cons.mp hqxm with hqx | hqm
        · rw [hqx]; exact hx
        · exact hA q (hAeq ▸ List.mem_append.mpr (Or.inr hqm))
    intro q hq
    rw [heq, seekAfter_append (s ++ x :: m) r pl pl.id hpre rfl] at hq
    exact Or.inr hq

/-- Helper: a successful `postsCursor` resolution is the seek-then-take
result of the requested cursor and limit. -/
lemma postsCursor_ok_inv (c : String) (L : Int) (posts page : List Post)
    (h : postsCursor (some c) (some L) ⟨posts, true⟩ = .ok page) :
    page = (seekAfter posts c).take L.toNat := by
  by_cases hf : (falsyStr (some c) || falsyNum (some L)) = true
  · unfold postsCursor at h
    rw [if_pos hf] at h
    cases h
  · unfold postsCursor at h
    rw [if_neg hf] at h
    simp only [findManyAfter, if_pos rfl, Option.getD_some] at h
    cases h
    rfl

/-- C1: two sequential cursor-mode fetches through `postsCursor`, where the
second request's cursor is the id of the last record of the first page and
both use the same positive limit, share no record — even when one fresh
record is inserted anywhere into the store between the two fetches (record
ids are unique and the fetched records themselves are not mutated). -/
theorem cursor_pagination_never_repeats
    (db1 s t : List Post) (x : Post) (c0 lastId : String) (L : Int)
    (page1 page2 : List Post)
    (hnodup : (db1.map Post.id).Nodup)
    (hfresh : x.id ∉ db1.map Post.id)
    (hsplit : db1 = s ++ t)
    (_hpos : 0 < L)
    (h1 : postsCursor (some c0) (some L) ⟨db1, true⟩ = .ok page1)
    (hne : page1 ≠ [])
    (hlastId : lastId = (page1.getLast hne).id)
    (h2 : postsCursor (some lastId) (some L) ⟨s ++ x :: t, true⟩ = .ok page2) :
    ∀ q ∈ page2, q ∉ page1 := by
  have hp1 := postsCursor_ok_inv c0 L db1 page1 h1
  have hp2 := postsCursor_ok_inv lastId L (s ++ x :: t) page2 h2
  set v := seekAfter db1 c0 with hv
  have hvne : v ≠ [] := fun hnil => hne (by rw [hp1, hnil]; simp)
  obtain ⟨A0, p0, hdb1⟩ := exists_split_of_seekAfter_ne db1 c0 hvne
  obtain ⟨w, hwl⟩ : ∃ w, page1 = w ++ [page1.getLast hne] :=
    ⟨page1.dropLast, (List.dropLast_append_getLast hne).symm⟩
  set pl := page1.getLast hne with hpl
  set rr := v.drop L.toNat with hrr
  have hvp : v = page1 ++ rr := by
    rw [hp1, hrr]
    exact (List.take_append_drop L.toNat v).symm
  have hdb1' : db1 = (A0 ++ p0 :: w) ++ pl :: rr := by
    rw [hdb1, ← hv, hvp, hwl]
    simp
  set A := A0 ++ p0 :: w with hA
  have hnodup' : ((A ++ pl :: rr).map Post.id).Nodup := by
    rw [← hdb1']
    exact hnodup
  rw [List.map_append, List.map_cons] at hnodup'
  obtain ⟨hnA, hnTail, hdisj⟩ := List.nodup_append.mp hnodup'
  have hAid : ∀ q ∈ A, q.id ≠ pl.id := by
    intro q hq heq
    exact hdisj (List.mem_map.mpr ⟨q, hq, rfl⟩)
      (by rw [heq]; exact List.mem_cons_self _ _)
  have hplrr : pl.id ∉ rr.map Post.id := (List.nodup_cons.mp hnTail).1
  have hArr : ∀ q ∈ A, q.id ∉ rr.map Post.id := by
    intro q hq hmem
    exact hdisj (List.mem_map.mpr ⟨q, hq, rfl⟩) (List.mem_cons_of_mem _ hmem)
  have hplmem : pl.id ∈ db1.map Post.id := by
    rw [hdb1']
    exact List.mem_map.mpr ⟨pl, by simp, rfl⟩
  have hxpl : x.id ≠ pl.id := fun heq => hfresh (heq ▸ hplmem)
  have hdb : A ++ pl :: rr = s ++ t := by
    rw [← hdb1']
    exact hsplit
  have hsub := seekAfter_insert A rr s t pl x hdb hAid hxpl
  intro q hq hq1
  rw [hp2, hlastId] at hq
  have hq2 : q ∈ seekAfter (s ++ x :: t) pl.id := List.take_subset L.toNat _ hq
  have hq1' : q ∈ w ++ [pl] := by
    rw [← hwl]
    exact hq1
  rcases hsub q hq2 with hqx | hqr
  · -- the second page record would be the freshly inserted one, yet it is
    -- also in the first page, hence in the first store: contradiction
    have hmem : q ∈ db1 := by
      rw [hdb1']
      rcases List.mem_append.mp hq1' with hqw | hqpl
      · exact List.mem_append.mpr (Or.inl (by rw [hA]; simp [hqw]))
      · rw [List.mem_singleton.mp hqpl]
        exact List.mem_append.mpr (Or.inr (List.mem_cons_self _ _))
    exact hfresh (hqx ▸ List.mem_map.mpr ⟨q, hmem, rfl⟩)
  · -- the second page record already lay strictly after the anchor, so its
    -- id cannot also occur at or before the anchor
    rcases List.mem_append.mp hq1' with hqw | hqpl
    · exact hArr q (by rw [hA]; simp [hqw]) (List.mem_map.mpr ⟨q, hqr, rfl⟩)
    · have hqpl' : q = pl := List.mem_singleton.mp hqpl
      exact hplrr (hqpl' ▸ List.mem_map.mpr ⟨q, hqr, rfl⟩)

/-- Witness for the C1 theorem: first fetch after cursor "a1" with limit 1
over a three-record store returns the page `[a2]`; a fresh record is inserted
at the front; the second fetch after cursor "a2" returns `[a3]`, which does
not meet the first page. -/
theorem cursor_pagination_never_repeats_witness :
    ((0 : Int) < 1 ∧
      (([⟨"a1", "Example Post 1"⟩, ⟨"a2", "Example Post 2"⟩,
         ⟨"a3", "Example Post 3"⟩] : List Post).map Post.id).Nodup) ∧
    (⟨"a3", "Example Post 3"⟩ : Post) ∉
      ([⟨"a2", "Example Post 2"⟩] : List Post) :=
  ⟨⟨by decide, by decide⟩,
   cursor_pagination_never_repeats
     [⟨"a1", "Example Post 1"⟩, ⟨"a2", "Example Post 2"⟩,
      ⟨"a3", "Example Post 3"⟩]
     []
     [⟨"a1", "Example Post 1"⟩, ⟨"a2", "Example Post 2"⟩,
      ⟨"a3", "Example Post 3"⟩]
     ⟨"a9", "New Post"⟩ "a1" "a2" 1
     [⟨"a2", "Example Post 2"⟩] [⟨"a3", "Example Post 3"⟩]
     (by decide) (by decide) rfl (by decide) (by decide) (by decide) rfl
     (by decide)
     ⟨"a3", "Example Post 3"⟩ (by decide)⟩

end PaginationExample
